import Mathlib

/-!
Verification development for the pencil.js scene-graph library.

Shallow embedding of the shape modules (Rectangle, Line, Arc, Text, Sprite,
Select, Button) and of the small math helpers they use.  JavaScript numbers
are modelled as rationals (ℚ); JavaScript strings are modelled as lists of
characters (`JStr`) so that split/join can be reasoned about directly.
Parts of the repository that are not in the sources (the Component / Input /
Image base classes and the math module) are modelled from the specification
and marked as such in their doc comments.
-/

set_option maxHeartbeats 1000000

/-- JavaScript string, modelled as its list of characters. -/
abbrev JStr := List Char

/-- Modelled from the spec: the math module's truncate (JS `Math.trunc`):
round toward zero. -/
def ratTrunc (x : ℚ) : Int :=
  if 0 ≤ x then ⌊x⌋ else ⌈x⌉

/-- JavaScript remainder operator `%` on numbers: `v - d * trunc (v / d)`. -/
def jsMod (v d : ℚ) : ℚ :=
  v - d * ratTrunc (v / d)

/-- Modelled from the spec: the math module's positive modulo,
`((v % d) + d) % d` in JavaScript. -/
def modulo (v d : ℚ) : ℚ :=
  jsMod (jsMod v d + d) d

/-- Modelled from the spec: the math module's clamp, called `constrain`:
`Math.min(max, Math.max(min, value))`. -/
def constrain (value lo hi : ℚ) : ℚ :=
  min hi (max lo value)

/-- The line separator used by the Text module (`"\n"`). -/
def newlineChar : Char := Char.ofNat 10

/-- JS `string.split("\n")`: split a string at every newline character.
Always returns a non-empty list; the separators are consumed. -/
def splitSep : JStr → List JStr
  | [] => [[]]
  | c :: cs =>
    if c = newlineChar then [] :: splitSep cs
    else
      match splitSep cs with
      | [] => [[c]]
      | l :: ls => (c :: l) :: ls

/-- The JS `array.join("\n")` operation on a list of lines. -/
def joinSep : List JStr → JStr
  | [] => []
  | [l] => l
  | l :: l2 :: ls => l ++ newlineChar :: joinSep (l2 :: ls)

/-- Argument of the Text setter: a JS string or an array of strings. -/
inductive StrOrList where
  | str (s : JStr)
  | arr (a : List JStr)

/-- src text.ts lines 11-16: reformat a string or array of strings into an
array of line strings, splitting at every newline. -/
def formatString : StrOrList → List JStr
  | .str s => splitSep s
  | .arr a => a.foldl (fun acc line => acc ++ splitSep line) []

/-- The Text component state relevant to its text getter and setter:
the stored array of lines (src text.ts line 65). -/
structure TextState where
  lines : List JStr
deriving DecidableEq

/-- src text.ts lines 97-99: the text setter stores `formatString text`. -/
def textSet (_t : TextState) (text : StrOrList) : TextState :=
  ⟨formatString text⟩

/-- src text.ts lines 85-87: the text getter joins the lines with newline. -/
def textGet (t : TextState) : JStr :=
  joinSep t.lines

/-- An option value as stored in a JS options record. -/
inductive OptVal where
  | jsUndefined
  | null
  | num (q : ℚ)
  | str (s : String)
  | bool (b : Bool)
deriving DecidableEq

/-- A JS object used as an options record: an association list in key order. -/
abbrev Options := List (String × OptVal)

/-- Property lookup on an options record. -/
def lookupOpt (o : Options) (k : String) : Option OptVal :=
  match o with
  | [] => none
  | kv :: rest => if kv.1 = k then some kv.2 else lookupOpt rest k

/-- Reading key `k` from record `o`; a missing key reads as `undefined`. -/
def oget (o : Options) (k : String) : OptVal :=
  (lookupOpt o k).getD .jsUndefined

/-- JS object spread `{...a, ...b}`: keys of `b` override keys of `a`;
keys of `a` keep their order, new keys of `b` follow. -/
def spread (a b : Options) : Options :=
  a.map (fun kv =>
    match lookupOpt b kv.1 with
    | some v => (kv.1, v)
    | none => kv)
  ++ b.filter (fun kv => (lookupOpt a kv.1).isNone)

/-- JS assignment `o.k = v` on an options record. -/
def setKey (o : Options) (k : String) (v : OptVal) : Options :=
  if (lookupOpt o k).isSome then
    o.map (fun kv => if kv.1 = k then (k, v) else kv)
  else o ++ [(k, v)]

/-- Modelled from the spec: the base Component default options — drawing
and behaviour attributes (fill color, stroke color, stroke width, cursor
kind, line join, opacity, visibility, rotation), every key bound to a
concrete value. -/
def componentDefaultOptions : Options :=
  [("fill", .str "#000"), ("stroke", .null), ("strokeWidth", .num 2),
   ("cursor", .str "default"), ("join", .str "miter"),
   ("opacity", .num 1), ("shown", .bool true), ("rotation", .num 0)]

/-- src line.ts lines 70-80: Line spreads its own keys over the Component
defaults, nulls out `fill` and `cursor`, and then assigns `stroke` from the
supertype's `fill` default. -/
def lineDefaultOptions : Options :=
  setKey
    (spread componentDefaultOptions
      [("cap", .str "round"), ("join", .str "round"),
       ("fill", .null), ("cursor", .null)])
    "stroke" (oget componentDefaultOptions "fill")

/-- src part_002 lines 76-81: Arc takes Line's defaults with `join: null`. -/
def arcDefaultOptions : Options :=
  spread lineDefaultOptions [("join", .null)]

/-- src text.ts lines 319-330: Text default options over Component's. -/
def textDefaultOptions : Options :=
  spread componentDefaultOptions
    [("font", .str "sans-serif"), ("fontSize", .num 20),
     ("align", .str "start"), ("bold", .bool false),
     ("italic", .bool false), ("underscore", .bool false),
     ("lineHeight", .num 1)]

/-- Modelled from the spec: the Input widget defaults (not in the sources)
layer input-widget colors and a pointer cursor over the Component defaults. -/
def inputDefaultOptions : Options :=
  spread componentDefaultOptions
    [("fill", .str "#444"), ("background", .str "#f6f6f6"),
     ("border", .str "#aaa"), ("hover", .str "#dcdcdc"),
     ("cursor", .str "pointer")]

/-- src button.ts lines 71-77: Button layers the Input defaults (its
supertype) over the Text defaults, then adds `value: ""`. -/
def buttonDefaultOptions : Options :=
  spread (spread textDefaultOptions inputDefaultOptions) [("value", .str "")]

/-- src part_001 lines 375-381: Select layers the Input defaults over the
Text defaults, then adds `value: 0`. -/
def selectDefaultOptions : Options :=
  spread (spread textDefaultOptions inputDefaultOptions) [("value", .num 0)]

/-- Modelled from the spec: the Image shape defaults (not in the sources):
an image draws a bitmap, so its default fill is null. -/
def imageDefaultOptions : Options :=
  spread componentDefaultOptions [("fill", .null)]

/-- src part_001 lines 168-174: Sprite adds `speed: 1` and `loop: true`
over the Image defaults. -/
def spriteDefaultOptions : Options :=
  spread imageDefaultOptions [("speed", .num 1), ("loop", .bool true)]

/-- The concrete shape kinds whose default chains the sources define. -/
inductive ShapeKind where
  | rectangle
  | line
  | arc
  | text
  | sprite
  | button
  | select
deriving DecidableEq

/-- The fully merged default-options record of each shape kind.
Rectangle defines no overrides in the sources and inherits Component's. -/
def shapeDefaults : ShapeKind → Options
  | .rectangle => componentDefaultOptions
  | .line => lineDefaultOptions
  | .arc => arcDefaultOptions
  | .text => textDefaultOptions
  | .sprite => spriteDefaultOptions
  | .button => buttonDefaultOptions
  | .select => selectDefaultOptions

/-- Modelled from the spec: instance options are merged over the variant
defaults at construction (precedence instance > variant > base). -/
def resolveOptions (sh : ShapeKind) (instOpts : Options) : Options :=
  spread (shapeDefaults sh) instOpts

/-- An options record holds no `undefined` value. -/
def noUndefinedVals (o : Options) : Bool :=
  o.all (fun kv => kv.2 ≠ OptVal.jsUndefined)

/-- A recorded 2D path/drawing command.  The angle arguments of `ellipse`
are recorded in turn units (already including the Arc correction); the
canvas receives them multiplied by `radianCircle` (see `arcTraceAngles`). -/
inductive PathCmd where
  | rect (x y w h : ℚ)
  | moveTo (x y : ℚ)
  | lineTo (x y : ℚ)
  | ellipse (x y rx ry rot startTurn endTurn : ℚ)
  | drawImage (sx sy sw sh dx dy dw dh : ℚ)
deriving DecidableEq

/-- Rectangle shape attributes (src rectangle.ts lines 17-28). -/
structure RectangleS where
  width : ℚ
  height : ℚ
deriving DecidableEq

/-- src rectangle.ts lines 35-38: `path.rect(0, 0, width, height)`. -/
def rectangleTrace (r : RectangleS) (path : List PathCmd) : List PathCmd :=
  path ++ [.rect 0 0 r.width r.height]

/-- Line shape attributes (src line.ts lines 16-28). -/
structure LineS where
  points : List (ℚ × ℚ)
deriving DecidableEq

/-- src line.ts lines 35-39: moveTo the origin then lineTo each point. -/
def lineTrace (l : LineS) (path : List PathCmd) : List PathCmd :=
  path ++ [.moveTo 0 0] ++ l.points.map (fun p => .lineTo p.1 p.2)

/-- Arc shape attributes (src part_002 lines 24-30); angles are in turns. -/
structure ArcS where
  horizontalRadius : ℚ
  verticalRadius : ℚ
  startAngle : ℚ
  endAngle : ℚ
deriving DecidableEq

/-- src part_002 line 38: the angle correction applied by Arc.trace, in
turn units (`-0.25`, a quarter turn, so that angle 0 is the top). -/
def arcCorrection : ℚ := -(1/4)

/-- Modelled from the spec: the math module's `radianCircle` constant, the
full circle in radians (2π). -/
noncomputable def radianCircle : ℝ := 2 * Real.pi

/-- src part_002 lines 38-40: the radian start and end angles computed by
Arc.trace, `(angle + correction) * radianCircle`. -/
noncomputable def arcTraceAngles (a : ArcS) : ℝ × ℝ :=
  (((a.startAngle + arcCorrection : ℚ) : ℝ) * radianCircle,
   ((a.endAngle + arcCorrection : ℚ) : ℝ) * radianCircle)

/-- The Canvas `Path2D.ellipse` contract (external drawing surface): a
negative radius is rejected with an `IndexSizeError`, otherwise the ellipse
command is appended. -/
def pathEllipse (path : List PathCmd) (x y rx ry rot startTurn endTurn : ℚ) :
    Except String (List PathCmd) :=
  if rx < 0 ∨ ry < 0 then .error "IndexSizeError"
  else .ok (path ++ [.ellipse x y rx ry rot startTurn endTurn])

/-- src part_002 lines 37-43: Arc.trace passes the radii unchanged to
`path.ellipse`, together with the corrected angles. -/
def arcTrace (a : ArcS) (path : List PathCmd) : Except String (List PathCmd) :=
  pathEllipse path 0 0 a.horizontalRadius a.verticalRadius 0
    (a.startAngle + arcCorrection) (a.endAngle + arcCorrection)

/-- One frame rectangle of a sprite-sheet (src part_001 lines 12-18). -/
structure FrameRect where
  x : ℚ
  y : ℚ
  w : ℚ
  h : ℚ
deriving DecidableEq

/-- Frame data: the sheet region and the original file region
(src part_001 lines 19-23). -/
structure FrameData where
  frame : FrameRect
  spriteSourceSize : FrameRect
deriving DecidableEq

/-- Sprite state (src part_001 lines 31-36 plus the inherited Image fields
and the resolved `speed` and `loop` options). -/
structure SpriteS where
  url : String
  frames : List FrameData
  frame : ℚ
  isPaused : Bool
  isLoaded : Bool
  width : ℚ
  height : ℚ
  speed : ℚ
  loop : Bool
deriving DecidableEq

/-- Placeholder frame data for an out-of-range JS array access. -/
def dummyFrame : FrameData := ⟨⟨0, 0, 0, 0⟩, ⟨0, 0, 0, 0⟩⟩

/-- JS `this.frames[Math.floor(this.frame)]` (src part_001 lines 43, 73). -/
def frameAt (s : SpriteS) : FrameData :=
  s.frames.getD (⌊s.frame⌋).toNat dummyFrame

/-- src part_001 lines 111-114: setFrame stores
`modulo(frame, this.frames.length)`. -/
def setFrame (s : SpriteS) (f : ℚ) : SpriteS :=
  { s with frame := modulo f (s.frames.length : ℚ) }

/-- src part_001 lines 72-82: Sprite.draw emits one drawImage of the sheet
region of the frame indexed by `Math.floor(this.frame)`, at the original
file offset, scaled to the sprite's current width and height. -/
def spriteDraw (s : SpriteS) : List PathCmd :=
  let fd := frameAt s
  [.drawImage fd.frame.x fd.frame.y fd.frame.w fd.frame.h
    fd.spriteSourceSize.x fd.spriteSourceSize.y s.width s.height]

/-- Modelled from the spec: Image.makePath (not in the sources) invokes the
shape's `draw` once the image is loaded and draws nothing before that. -/
def imageMakePath (s : SpriteS) : List PathCmd :=
  if s.isLoaded then spriteDraw s else []

/-- src part_001 lines 42-66: Sprite.makePath.  Sets width and height from
the current frame, draws through the inherited makePath, then — when loaded
and not paused and (loop or before the last frame) — advances the frame by
the speed option, firing a sprite-frame event when the integer frame number
changed (and a sprite-end event on reaching the last frame without loop).
Returns the updated sprite, the geometry drawn and the events fired. -/
def spriteMakePath (s : SpriteS) : SpriteS × List PathCmd × List String :=
  let fd := frameAt s
  let s1 := { s with width := fd.spriteSourceSize.w, height := fd.spriteSourceSize.h }
  let geometry := imageMakePath s1
  if s1.isLoaded then
    let frameNumber := ⌊s1.frame⌋
    let s2 :=
      if !s1.isPaused && (s1.loop || decide (s1.frame < (s1.frames.length : ℚ) - 1)) then
        setFrame s1 (s1.frame + s1.speed)
      else s1
    let nextFrame := ⌊s2.frame⌋
    let events :=
      if nextFrame ≠ frameNumber then
        ["sprite-frame"] ++
          (if !s2.loop && decide (nextFrame = (s2.frames.length : Int) - 1) then
            ["sprite-end"]
          else [])
      else []
    (s2, geometry, events)
  else (s1, geometry, [])

/-- src text.ts lines 174-178: the Text background trace used for hit
detection — a rectangle of the text's measured width and height (the
measurement service is external and pure per the spec, so the measured
width and height stand as the shape's attributes here). -/
def textTrace (width height : ℚ) (path : List PathCmd) : List PathCmd :=
  path ++ [.rect 0 0 width height]

/-- Modelled from the spec: the Component-level computePath discipline — a
node carries its shape attributes, the cached path and the dirty flag; the
path is recomputed only when `isPathDirty` or never yet computed, and the
flag is cleared after recomputation. -/
structure PathNode (α : Type) (G : Type) where
  shape : α
  path : Option G
  isPathDirty : Bool

/-- Modelled from the spec: the computePath wrapper over a shape's trace. -/
def computePathWith {α G : Type} (tr : α → G) (c : PathNode α G) :
    PathNode α G :=
  if c.isPathDirty || c.path.isNone then
    { c with path := some (tr c.shape), isPathDirty := false }
  else c

/-- The geometry a Rectangle's computePath caches (src rectangle.ts 35-38). -/
def rectanglePathOf (r : RectangleS) : List PathCmd :=
  rectangleTrace r []

/-- The geometry a Line's computePath caches (src line.ts 35-39). -/
def linePathOf (l : LineS) : List PathCmd :=
  lineTrace l []

/-- The tracing outcome an Arc's computePath caches (src part_002 37-43). -/
def arcPathOf (a : ArcS) : Except String (List PathCmd) :=
  arcTrace a []

/-- The geometry a Text's computePath caches, from its measured width and
height (src text.ts 174-178). -/
def textPathOf (wh : ℚ × ℚ) : List PathCmd :=
  textTrace wh.1 wh.2 []

/-- src part_001 lines 387-389: the margin factor around a Select's text. -/
def selectMARGIN : ℚ := 1/5

/-- Select state: the symbol-keyed selected index, the option Texts, the
display Text's content, and the dropdown container's shown flag and
vertical offset (src part_001 lines 261-320).  `optionHeight` is the height
of the first option Text as reported by the external measurement service. -/
structure SelectS where
  optionsList : List TextState
  selected : ℚ
  displayText : JStr
  containerShown : Bool
  containerY : ℚ
  optionHeight : ℚ
deriving DecidableEq

/-- src part_001 lines 261-320 (state-relevant part): the Select
constructor.  An empty options list raises a RangeError as the very first
statement, before any state is initialized; otherwise the selected index
starts at 0, each option string becomes a Text (whose lines are its split),
the display Text is created empty and the dropdown container is hidden.
`optionHeight` stands for the measured height of the option Texts. -/
def mkSelect (optionHeight : ℚ) (optionsList : List JStr) : Except String SelectS :=
  if optionsList.length = 0 then
    .error "RangeError: Options list should have at least one item."
  else
    .ok { optionsList := optionsList.map (fun o => ⟨splitSep o⟩)
          selected := 0
          displayText := []
          containerShown := false
          containerY := 0
          optionHeight := optionHeight }

/-- JS array indexing `a[i]` with a number index: yields an element only
when `i` is a non-negative integer below the length; any other number reads
as `undefined`. -/
def listGetNum (a : List α) (i : ℚ) : Option α :=
  if 0 ≤ i ∧ i.den = 1 then a.get? (⌊i⌋).toNat else none

/-- src part_001 lines 332-339: the `value` setter.  The selected index is
stored as `constrain(value, 0, length - 1)` first; the following statements
read `optionsList[selected]`, update the display Text, hide the dropdown
container and move it up by selected rows.  When the constrained index is
not an integer the element read is `undefined` and the source throws a
TypeError — after the index was already stored.  Returns the updated state
and whether such a TypeError was thrown. -/
def selectSetValueAux (s : SelectS) (sel : ℚ) :
    Option TextState → SelectS × Bool
  | some t =>
    ({ s with selected := sel
              displayText := joinSep t.lines
              containerShown := false
              containerY :=
                -sel * (s.optionHeight + 2 * (s.optionHeight * selectMARGIN)) },
      false)
  | none => ({ s with selected := sel }, true)

/-- The setter itself: constrain, then look the entry up and update. -/
def selectSetValue (s : SelectS) (v : ℚ) : SelectS × Bool :=
  selectSetValueAux s (constrain v 0 ((s.optionsList.length : ℚ) - 1))
    (listGetNum s.optionsList (constrain v 0 ((s.optionsList.length : ℚ) - 1)))

/-- src part_001 lines 325-327: the `value` getter returns the stored
selected index. -/
def selectGetValue (s : SelectS) : ℚ :=
  s.selected

/-- A scene subtree over the registered shape types.  Every node carries
its position, its resolved options record and its ordered children; the
shape-specific fields follow the sources.  A Select node keeps its option
texts and its selected index; its internal widget children built by the
constructor are part of its own state, not of the serialized children. -/
inductive PTree where
  | rect (pos : ℚ × ℚ) (opts : Options) (width height : ℚ)
      (children : List PTree)
  | line (pos : ℚ × ℚ) (opts : Options) (points : List (ℚ × ℚ))
      (children : List PTree)
  | arc (pos : ℚ × ℚ) (opts : Options) (shape : ArcS) (children : List PTree)
  | text (pos : ℚ × ℚ) (opts : Options) (lines : List JStr)
      (children : List PTree)
  | sprite (pos : ℚ × ℚ) (opts : Options) (url : String)
      (frames : List FrameData) (frame : ℚ) (isPaused : Bool)
      (children : List PTree)
  | select (pos : ℚ × ℚ) (opts : Options) (values : List JStr) (selected : ℚ)
      (children : List PTree)

/-- A serialized node (the plain data produced by toJSON): the type tag is
the constructor; position, options and children are the base Component
snapshot (modelled from the spec), the remaining fields are the
shape-specific ones each toJSON adds in the sources.  Note that a Text
serializes its joined text (src text.ts lines 244-250) and a Select
serializes only the option texts as `values` (src part_001 lines 351-355)
— not its selected index. -/
inductive PSerial where
  | rect (pos : ℚ × ℚ) (opts : Options) (width height : ℚ)
      (children : List PSerial)
  | line (pos : ℚ × ℚ) (opts : Options) (points : List (ℚ × ℚ))
      (children : List PSerial)
  | arc (pos : ℚ × ℚ) (opts : Options) (shape : ArcS) (children : List PSerial)
  | text (pos : ℚ × ℚ) (opts : Options) (text : JStr) (children : List PSerial)
  | sprite (pos : ℚ × ℚ) (opts : Options) (url : String)
      (frames : List FrameData) (frame : ℚ) (isPaused : Bool)
      (children : List PSerial)
  | select (pos : ℚ × ℚ) (opts : Options) (values : List JStr)
      (children : List PSerial)

mutual

/-- toJSON of a subtree: the base snapshot (type tag, position, options,
serialized children — modelled from the spec) plus the shape-specific
fields each shape's toJSON adds in the sources. -/
def treeToJSON : PTree → PSerial
  | .rect p o w h cs => .rect p o w h (treeToJSONList cs)
  | .line p o pts cs => .line p o pts (treeToJSONList cs)
  | .arc p o a cs => .arc p o a (treeToJSONList cs)
  | .text p o lines cs => .text p o (joinSep lines) (treeToJSONList cs)
  | .sprite p o url frames frame isPaused cs =>
      .sprite p o url frames frame isPaused (treeToJSONList cs)
  | .select p o values _sel cs => .select p o values (treeToJSONList cs)

def treeToJSONList : List PTree → List PSerial
  | [] => []
  | t :: ts => treeToJSON t :: treeToJSONList ts

end

mutual

/-- `from` of a serialized node: dispatch on the type tag to the shape's
`from` in the sources, and re-attach the deserialized children (the
children recursion is modelled from the spec).  A Text's constructor
re-splits the serialized text; a Sprite's `from` rebuilds the sprite and
then calls setFrame (a modulo) and pause; a Select's `from` re-runs the
constructor on the serialized `values`, so it raises on an empty list and
resets the selected index to 0. -/
def treeFromJSON : PSerial → Except String PTree
  | .rect p o w h cs =>
    match treeFromJSONList cs with
    | .error e => .error e
    | .ok ts => .ok (.rect p o w h ts)
  | .line p o pts cs =>
    match treeFromJSONList cs with
    | .error e => .error e
    | .ok ts => .ok (.line p o pts ts)
  | .arc p o a cs =>
    match treeFromJSONList cs with
    | .error e => .error e
    | .ok ts => .ok (.arc p o a ts)
  | .text p o txt cs =>
    match treeFromJSONList cs with
    | .error e => .error e
    | .ok ts => .ok (.text p o (splitSep txt) ts)
  | .sprite p o url frames frame isPaused cs =>
    match treeFromJSONList cs with
    | .error e => .error e
    | .ok ts =>
      .ok (.sprite p o url frames (modulo frame (frames.length : ℚ))
        isPaused ts)
  | .select p o values cs =>
    if values.length = 0 then
      .error "RangeError: Options list should have at least one item."
    else
      match treeFromJSONList cs with
      | .error e => .error e
      | .ok ts => .ok (.select p o values 0 ts)

def treeFromJSONList : List PSerial → Except String (List PTree)
  | [] => .ok []
  | d :: ds =>
    match treeFromJSON d with
    | .error e => .error e
    | .ok t =>
      match treeFromJSONList ds with
      | .error e => .error e
      | .ok ts => .ok (t :: ts)

end

mutual

/-- Well-formedness of a subtree, as guaranteed by the constructors: a
Text's lines come from `formatString` (non-empty, newline-free lines), a
Sprite's frame index was set by setFrame into `[0, frames.length)`, and a
Select was constructed from a non-empty options list. -/
def treeWF : PTree → Bool
  | .rect _ _ _ _ cs => treeWFList cs
  | .line _ _ _ cs => treeWFList cs
  | .arc _ _ _ cs => treeWFList cs
  | .text _ _ lines cs =>
    !lines.isEmpty
      && lines.all (fun l => l.all (fun c => c ≠ newlineChar))
      && treeWFList cs
  | .sprite _ _ _ frames frame _ cs =>
    decide (0 < frames.length) && decide (0 ≤ frame)
      && decide (frame < (frames.length : ℚ)) && treeWFList cs
  | .select _ _ values _ cs => !values.isEmpty && treeWFList cs

def treeWFList : List PTree → Bool
  | [] => true
  | t :: ts => treeWF t && treeWFList ts

end

mutual

/-- Reset every Select node's selected index to 0 (what deserialization
does, since the selected index is not serialized). -/
def resetSelects : PTree → PTree
  | .rect p o w h cs => .rect p o w h (resetSelectsList cs)
  | .line p o pts cs => .line p o pts (resetSelectsList cs)
  | .arc p o a cs => .arc p o a (resetSelectsList cs)
  | .text p o lines cs => .text p o lines (resetSelectsList cs)
  | .sprite p o url frames frame isPaused cs =>
      .sprite p o url frames frame isPaused (resetSelectsList cs)
  | .select p o values _sel cs => .select p o values 0 (resetSelectsList cs)

def resetSelectsList : List PTree → List PTree
  | [] => []
  | t :: ts => resetSelects t :: resetSelectsList ts

end

theorem splitSep_ne_nil (s : JStr) : splitSep s ≠ [] := by
  cases s with
  | nil => simp [splitSep]
  | cons c cs =>
    simp only [splitSep]
    split
    · simp
    · cases splitSep cs <;> simp

theorem joinSep_cons_cons (l : JStr) (c : Char) (ls : List JStr) :
    joinSep ((c :: l) :: ls) = c :: joinSep (l :: ls) := by
  cases ls with
  | nil => rfl
  | cons l2 rest => simp [joinSep]

theorem joinSep_splitSep (s : JStr) : joinSep (splitSep s) = s := by
  induction s with
  | nil => rfl
  | cons c cs ih =>
    simp only [splitSep]
    by_cases h : c = newlineChar
    · subst h
      simp only [if_pos rfl]
      obtain ⟨l, ls, hls⟩ : ∃ l ls, splitSep cs = l :: ls := by
        cases hsp : splitSep cs with
        | nil => exact absurd hsp (splitSep_ne_nil cs)
        | cons l ls => exact ⟨l, ls, rfl⟩
      rw [hls] at ih ⊢
      simpa [joinSep] using ih
    · simp only [if_neg h]
      obtain ⟨l, ls, hls⟩ : ∃ l ls, splitSep cs = l :: ls := by
        cases hsp : splitSep cs with
        | nil => exact absurd hsp (splitSep_ne_nil cs)
        | cons l ls => exact ⟨l, ls, rfl⟩
      rw [hls] at ih ⊢
      rw [joinSep_cons_cons, ih]

theorem formatString_arr_eq_flatMap (a : List JStr) :
    formatString (.arr a) = a.flatMap splitSep := by
  have general : ∀ (l : List JStr) (acc : List JStr),
      l.foldl (fun acc line => acc ++ splitSep line) acc
        = acc ++ l.flatMap splitSep := by
    intro l
    induction l with
    | nil => intro acc; simp
    | cons x rest ih => intro acc; simp [List.foldl, ih]
  simpa using general a []

theorem joinSep_append (as bs : List JStr) (ha : as ≠ []) (hb : bs ≠ []) :
    joinSep (as ++ bs) = joinSep as ++ newlineChar :: joinSep bs := by
  induction as with
  | nil => exact absurd rfl ha
  | cons a rest ih =>
    cases rest with
    | nil =>
      cases bs with
      | nil => exact absurd rfl hb
      | cons b bs2 => simp [joinSep]
    | cons a2 rest2 =>
      have step : (a :: a2 :: rest2) ++ bs = a :: ((a2 :: rest2) ++ bs) := rfl
      rw [step]
      have tail_cons : (a2 :: rest2) ++ bs = a2 :: (rest2 ++ bs) := rfl
      rw [show joinSep (a :: (a2 :: rest2 ++ bs))
            = a ++ newlineChar :: joinSep (a2 :: rest2 ++ bs) from rfl]
      rw [ih (by simp)]
      simp [joinSep]

theorem flatMap_splitSep_ne_nil (a : List JStr) (ha : a ≠ []) :
    a.flatMap splitSep ≠ [] := by
  cases a with
  | nil => exact absurd rfl ha
  | cons x rest =>
    simp only [List.flatMap_cons]
    intro h
    have := List.append_eq_nil.mp h
    exact splitSep_ne_nil x this.1

theorem joinSep_flatMap_splitSep (a : List JStr) :
    joinSep (a.flatMap splitSep) = joinSep a := by
  induction a with
  | nil => rfl
  | cons x rest ih =>
    cases hrest : rest with
    | nil => simp [joinSep_splitSep, joinSep]
    | cons y rest2 =>
      rw [List.flatMap_cons,
        joinSep_append (splitSep x) ((y :: rest2).flatMap splitSep)
          (splitSep_ne_nil x)
          (flatMap_splitSep_ne_nil (y :: rest2) (by simp)),
        joinSep_splitSep]
      rw [hrest] at ih
      rw [ih]
      rfl

theorem splitSep_of_no_newline (l : JStr) (h : ∀ c ∈ l, c ≠ newlineChar) :
    splitSep l = [l] := by
  induction l with
  | nil => rfl
  | cons c cs ih =>
    have hc : c ≠ newlineChar := h c (by simp)
    have hcs : splitSep cs = [cs] := ih (fun x hx => h x (by simp [hx]))
    simp [splitSep, hc, hcs]

theorem splitSep_append_newline (x r : JStr) (h : ∀ c ∈ x, c ≠ newlineChar) :
    splitSep (x ++ newlineChar :: r) = x :: splitSep r := by
  induction x with
  | nil => simp [splitSep]
  | cons c cs ih =>
    have hc : c ≠ newlineChar := h c (by simp)
    have hcs := ih (fun a ha => h a (by simp [ha]))
    rw [List.cons_append]
    rw [show splitSep (c :: (cs ++ newlineChar :: r))
        = if c = newlineChar then [] :: splitSep (cs ++ newlineChar :: r)
          else
            match splitSep (cs ++ newlineChar :: r) with
            | [] => [[c]]
            | l :: ls => (c :: l) :: ls from rfl]
    rw [if_neg hc, hcs]

theorem splitSep_joinSep (lines : List JStr) (hne : lines ≠ [])
    (hfree : ∀ l ∈ lines, ∀ c ∈ l, c ≠ newlineChar) :
    splitSep (joinSep lines) = lines := by
  induction lines with
  | nil => exact absurd rfl hne
  | cons l rest ih =>
    cases rest with
    | nil =>
      exact splitSep_of_no_newline l (hfree l (by simp))
    | cons l2 rest2 =>
      have step : joinSep (l :: l2 :: rest2)
          = l ++ newlineChar :: joinSep (l2 :: rest2) := rfl
      rw [step, splitSep_append_newline l _ (hfree l (by simp))]
      rw [ih (by simp) (fun a ha => hfree a (by simp [ha]))]

theorem lookupOpt_append (a b : Options) (k : String) :
    lookupOpt (a ++ b) k
      = match lookupOpt a k with
        | some v => some v
        | none => lookupOpt b k := by
  induction a with
  | nil => simp [lookupOpt]
  | cons kv rest ih =>
    by_cases h : kv.1 = k <;> simp [lookupOpt, h, ih]

theorem lookupOpt_map_override (a b : Options) (k : String) :
    lookupOpt (a.map (fun kv =>
      match lookupOpt b kv.1 with
      | some v => (kv.1, v)
      | none => kv)) k
      = match lookupOpt a k with
        | some v => some ((lookupOpt b k).getD v)
        | none => none := by
  induction a with
  | nil => rfl
  | cons kv rest ih =>
    rw [List.map_cons]
    cases hb : lookupOpt b kv.1 with
    | none =>
      simp only [hb]
      by_cases h : kv.1 = k
      · rw [lookupOpt, if_pos h, lookupOpt, if_pos h, ← h, hb]
        rfl
      · rw [lookupOpt, if_neg h, lookupOpt, if_neg h, ih]
    | some v =>
      simp only [hb]
      by_cases h : kv.1 = k
      · rw [lookupOpt, if_pos h, lookupOpt, if_pos h, ← h, hb]
        rfl
      · rw [lookupOpt, if_neg h, lookupOpt, if_neg h, ih]

theorem lookupOpt_filter_keyProp (b : Options) (q : String → Bool) (k : String) :
    lookupOpt (b.filter (fun kv => q kv.1)) k
      = if q k then lookupOpt b k else none := by
  induction b with
  | nil => simp [lookupOpt]
  | cons kv rest ih =>
    by_cases h : kv.1 = k
    · subst h
      by_cases hq : q kv.1 <;> simp [List.filter, lookupOpt, hq, ih]
    · by_cases hq : q kv.1 <;> simp [List.filter, lookupOpt, hq, h, ih]

theorem lookupOpt_spread (a b : Options) (k : String) :
    lookupOpt (spread a b) k
      = match lookupOpt a k with
        | some v => some ((lookupOpt b k).getD v)
        | none => lookupOpt b k := by
  rw [spread, lookupOpt_append, lookupOpt_map_override]
  have filt : lookupOpt (b.filter (fun kv => (lookupOpt a kv.1).isNone)) k
      = if (lookupOpt a k).isNone then lookupOpt b k else none :=
    lookupOpt_filter_keyProp b (fun key => (lookupOpt a key).isNone) k
  cases ha : lookupOpt a k <;> simp [ha, filt]

theorem oget_spread (a b : Options) (k : String) :
    oget (spread a b) k
      = if (lookupOpt b k).isSome then oget b k else oget a k := by
  rw [oget, lookupOpt_spread]
  cases ha : lookupOpt a k <;> cases hb : lookupOpt b k <;>
    simp [oget, ha, hb]

theorem lookupOpt_isSome_spread (a b : Options) (k : String) :
    (lookupOpt (spread a b) k).isSome
      = ((lookupOpt a k).isSome || (lookupOpt b k).isSome) := by
  rw [lookupOpt_spread]
  cases ha : lookupOpt a k <;> cases hb : lookupOpt b k <;> simp [ha, hb]

theorem lookupOpt_mem (o : Options) (k : String) (v : OptVal)
    (h : lookupOpt o k = some v) : (k, v) ∈ o := by
  induction o with
  | nil => simp [lookupOpt] at h
  | cons kv rest ih =>
    by_cases hk : kv.1 = k
    · rw [lookupOpt, if_pos hk] at h
      have hv : kv.2 = v := by injection h
      have hkv : kv = (k, v) := by
        cases kv
        simp only at hk hv
        simp [hk, hv]
      rw [show (k, v) = kv from hkv.symm]
      exact List.mem_cons_self kv rest
    · rw [lookupOpt, if_neg hk] at h
      exact List.mem_cons_of_mem kv (ih h)

theorem modulo_eq_self (v d : ℚ) (h0 : 0 ≤ v) (hd : v < d) :
    modulo v d = v := by
  have hdpos : 0 < d := lt_of_le_of_lt h0 hd
  have hq0 : (0 : ℚ) ≤ v / d := div_nonneg h0 (le_of_lt hdpos)
  have hq1 : v / d < 1 := (div_lt_one hdpos).mpr hd
  have hfl : ⌊v / d⌋ = 0 := Int.floor_eq_zero_iff.mpr ⟨hq0, hq1⟩
  have htr : ratTrunc (v / d) = 0 := by
    rw [ratTrunc, if_pos hq0, hfl]
  have hjs : jsMod v d = v := by
    rw [jsMod, htr]
    push_cast
    ring
  have hsum : (v + d) / d = v / d + 1 := by
    field_simp
  have htr2 : ratTrunc ((v + d) / d) = 1 := by
    rw [ratTrunc, if_pos (by rw [hsum]; positivity), hsum, Int.floor_add_one, hfl]
    simp
  rw [modulo, hjs, jsMod, htr2]
  push_cast
  ring

theorem selectSetValueAux_selected (s : SelectS) (sel : ℚ)
    (r : Option TextState) : (selectSetValueAux s sel r).1.selected = sel := by
  cases r <;> rfl

theorem selectSetValue_selected (s : SelectS) (v : ℚ) :
    (selectSetValue s v).1.selected
      = constrain v 0 ((s.optionsList.length : ℚ) - 1) := by
  rw [selectSetValue]
  exact selectSetValueAux_selected s _ _

/-- C10: on a Text, after `t.text = s` the getter returns `s` unchanged;
after `t.text = a` for an array of strings the getter returns the elements
of `a` joined with a newline, embedded newlines notwithstanding. -/
theorem claim10_text_setter_getter_roundtrip (t : TextState) (s : JStr)
    (a : List JStr) :
    textGet (textSet t (.str s)) = s ∧
    textGet (textSet t (.arr a)) = joinSep a := by
  constructor
  · exact joinSep_splitSep s
  · show joinSep (formatString (.arr a)) = joinSep a
    rw [formatString_arr_eq_flatMap]
    exact joinSep_flatMap_splitSep a

/-- C8: constructing a Select with an empty options list raises the
RangeError before any state is initialized, and construction succeeds for
exactly the non-empty options lists. -/
theorem claim8_select_empty_list_rangeError (h : ℚ) (l : List JStr) :
    mkSelect h []
      = .error "RangeError: Options list should have at least one item." ∧
    ((mkSelect h l).isOk = true ↔ l ≠ []) := by
  constructor
  · rfl
  · rw [mkSelect]
    cases l <;> simp [Except.isOk, Except.toBool]

/-- C9: after the assignment `s.value = v` the getter returns
`constrain v 0 (n-1)`, which always lies within [0, n-1]; whenever v is
already within [0, n-1] the getter returns v itself. -/
theorem claim9_select_value_constrained (s : SelectS) (v : ℚ)
    (hne : 1 ≤ s.optionsList.length) :
    selectGetValue (selectSetValue s v).1
      = constrain v 0 ((s.optionsList.length : ℚ) - 1) ∧
    0 ≤ selectGetValue (selectSetValue s v).1 ∧
    selectGetValue (selectSetValue s v).1 ≤ (s.optionsList.length : ℚ) - 1 ∧
    (0 ≤ v → v ≤ (s.optionsList.length : ℚ) - 1 →
      selectGetValue (selectSetValue s v).1 = v) := by
  have hlen : (0 : ℚ) ≤ (s.optionsList.length : ℚ) - 1 := by
    have : (1 : ℚ) ≤ (s.optionsList.length : ℚ) := by
      exact_mod_cast hne
    linarith
  have hsel := selectSetValue_selected s v
  refine ⟨hsel, ?_, ?_, ?_⟩
  · rw [selectGetValue, hsel, constrain]
    exact le_min hlen (le_max_left 0 v)
  · rw [selectGetValue, hsel, constrain]
    exact min_le_left _ _
  · intro hv0 hv1
    rw [selectGetValue, hsel, constrain, max_eq_right hv0, min_eq_right hv1]

/-- C9 witness: a Select over two options, assigning value 1. -/
theorem claim9_witness :
    1 ≤ ([⟨[[]]⟩, ⟨[[]]⟩] : List TextState).length ∧
    selectGetValue (selectSetValue ⟨[⟨[[]]⟩, ⟨[[]]⟩], 0, [], false, 0, 1⟩ 1).1
      = constrain 1 0 ((([⟨[[]]⟩, ⟨[[]]⟩] : List TextState).length : ℚ) - 1) ∧
    (0 ≤ selectGetValue (selectSetValue ⟨[⟨[[]]⟩, ⟨[[]]⟩], 0, [], false, 0, 1⟩ 1).1) :=
  have h := claim9_select_value_constrained ⟨[⟨[[]]⟩, ⟨[[]]⟩], 0, [], false, 0, 1⟩ 1
    (by decide)
  ⟨by decide, h.1, h.2.1⟩

/-- C6: rotation and angle attributes are in turns (1 = full turn); the
Arc trace converts a turn angle a to the radian angle (a - 0.25)·2π, so
turn 0 lands at -π/2 (the top of the ellipse), turn 1/2 at π/2 (the
bottom), and turn 1 a full 2π past the top. -/
theorem claim6_turns_convention (a : ArcS) :
    (arcTraceAngles a).1 = ((a.startAngle : ℝ) - 1/4) * (2 * Real.pi) ∧
    (arcTraceAngles a).2 = ((a.endAngle : ℝ) - 1/4) * (2 * Real.pi) ∧
    (arcTraceAngles ⟨a.horizontalRadius, a.verticalRadius, 0, 1/2⟩).1
      = -(Real.pi / 2) ∧
    (arcTraceAngles ⟨a.horizontalRadius, a.verticalRadius, 0, 1/2⟩).2
      = Real.pi / 2 ∧
    (arcTraceAngles ⟨a.horizontalRadius, a.verticalRadius, 1, a.endAngle⟩).1
      = (arcTraceAngles ⟨a.horizontalRadius, a.verticalRadius, 0, a.endAngle⟩).1
        + 2 * Real.pi := by
  refine ⟨?_, ?_, ?_, ?_, ?_⟩ <;>
    · simp only [arcTraceAngles, radianCircle, arcCorrection]
      push_cast
      ring

/-- C4: the resolved options record of an instance of any concrete shape
never contains `undefined` for a key defined anywhere in its default chain
(instance overrides themselves carrying no `undefined`); a key may well be
`null`, as Line's fill/cursor and Arc's join are. -/
theorem claim4_resolved_options_never_undefined (sh : ShapeKind)
    (instOpts : Options) (hinst : noUndefinedVals instOpts = true) (k : String)
    (hk : (lookupOpt (shapeDefaults sh) k).isSome = true) :
    oget (resolveOptions sh instOpts) k ≠ OptVal.jsUndefined := by
  have hdefaults : ∀ kv ∈ shapeDefaults sh, kv.2 ≠ OptVal.jsUndefined := by
    cases sh <;> decide
  rw [resolveOptions, oget_spread]
  by_cases hi : (lookupOpt instOpts k).isSome = true
  · rw [if_pos hi]
    obtain ⟨v, hv⟩ := Option.isSome_iff_exists.mp hi
    have hmem := lookupOpt_mem instOpts k v hv
    have hval := (List.all_eq_true.mp hinst) (k, v) hmem
    rw [oget, hv]
    simpa using of_decide_eq_true hval
  · rw [if_neg hi]
    obtain ⟨v, hv⟩ := Option.isSome_iff_exists.mp hk
    have hmem := lookupOpt_mem _ k v hv
    rw [oget, hv]
    simpa using hdefaults (k, v) hmem

/-- C4 witness: a Line instance overriding `fill`, read at key `stroke`. -/
theorem claim4_witness :
    noUndefinedVals [("fill", OptVal.str "red")] = true ∧
    (lookupOpt (shapeDefaults ShapeKind.line) "stroke").isSome = true ∧
    oget (resolveOptions ShapeKind.line [("fill", OptVal.str "red")]) "stroke"
      ≠ OptVal.jsUndefined :=
  ⟨by decide, by decide,
    claim4_resolved_options_never_undefined ShapeKind.line
      [("fill", OptVal.str "red")] (by decide) "stroke" (by decide)⟩

/-- C5: merge precedence of the default-options scheme — instance keys
override variant defaults; Button layers the Input defaults over the Text
defaults; Line nulls the inherited fill and cursor, derives its stroke
default from the supertype's fill default and sets round caps; Arc nulls
the join inherited from Line. -/
theorem claim5_default_merge_precedence (sh : ShapeKind) (instOpts : Options)
    (k k2 : String)
    (hk : (lookupOpt instOpts k).isSome = true)
    (hk2 : (lookupOpt inputDefaultOptions k2).isSome = true) :
    oget (resolveOptions sh instOpts) k = oget instOpts k ∧
    oget buttonDefaultOptions k2 = oget inputDefaultOptions k2 ∧
    oget lineDefaultOptions "fill" = OptVal.null ∧
    oget lineDefaultOptions "cursor" = OptVal.null ∧
    oget lineDefaultOptions "stroke" = oget componentDefaultOptions "fill" ∧
    oget lineDefaultOptions "cap" = OptVal.str "round" ∧
    oget arcDefaultOptions "join" = OptVal.null := by
  refine ⟨?_, ?_, by decide, by decide, by decide, by decide, by decide⟩
  · rw [resolveOptions, oget_spread, if_pos hk]
  · by_cases hval : k2 = "value"
    · subst hval
      exact absurd hk2 (by decide)
    · have hnotv : (lookupOpt [("value", OptVal.str "")] k2).isSome = false := by
        have : ("value" : String) ≠ k2 := fun h => hval h.symm
        simp [lookupOpt, this]
      rw [buttonDefaultOptions, oget_spread, hnotv]
      rw [if_neg (by simp)]
      rw [oget_spread, if_pos hk2]

/-- C5 witness: a Rectangle instance overriding `fill`, and the Button
default for `cursor` coming from Input rather than Text. -/
theorem claim5_witness :
    (lookupOpt [("fill", OptVal.str "red")] "fill").isSome = true ∧
    (lookupOpt inputDefaultOptions "cursor").isSome = true ∧
    oget (resolveOptions ShapeKind.rectangle [("fill", OptVal.str "red")]) "fill"
      = oget [("fill", OptVal.str "red")] "fill" ∧
    oget buttonDefaultOptions "cursor" = oget inputDefaultOptions "cursor" :=
  have h := claim5_default_merge_precedence ShapeKind.rectangle
    [("fill", OptVal.str "red")] "fill" "cursor" (by decide) (by decide)
  ⟨by decide, by decide, h.1, h.2.1⟩

/-- C3 counterexample: an Arc whose horizontalRadius is -1.  Arc.trace does
not clamp or ignore the malformed radius: the negative value reaches
`path.ellipse`, which rejects it, so path tracing raises instead of
degrading gracefully. -/
theorem claim3_counterexample_negative_radius_raises :
    arcTrace ⟨-1, 1, 0, 1/2⟩ [] = .error "IndexSizeError" := by
  rw [arcTrace, pathEllipse, if_pos]
  left
  norm_num

/-- C3 amended: Arc.trace applies no clamping — the radii are handed to
`path.ellipse` unchanged — and path tracing succeeds exactly when both
radii are non-negative; a negative radius raises an IndexSizeError from
the ellipse call. -/
theorem claim3_arc_trace_no_clamping (a : ArcS) (path : List PathCmd)
    (h1 : 0 ≤ a.horizontalRadius) (h2 : 0 ≤ a.verticalRadius) :
    arcTrace a path
      = .ok (path ++ [.ellipse 0 0 a.horizontalRadius a.verticalRadius 0
          (a.startAngle + arcCorrection) (a.endAngle + arcCorrection)]) := by
  rw [arcTrace, pathEllipse, if_neg]
  push_neg
  exact ⟨h1, h2⟩

/-- C3 witness: a well-formed Arc traces without error. -/
theorem claim3_witness :
    (0 : ℚ) ≤ (⟨2, 1, 0, 1/2⟩ : ArcS).horizontalRadius ∧
    (0 : ℚ) ≤ (⟨2, 1, 0, 1/2⟩ : ArcS).verticalRadius ∧
    arcTrace ⟨2, 1, 0, 1/2⟩ []
      = .ok ([] ++ [.ellipse 0 0 (2 : ℚ) 1 0 (0 + arcCorrection)
          (1/2 + arcCorrection)]) :=
  ⟨by decide, by decide,
    claim3_arc_trace_no_clamping ⟨2, 1, 0, 1/2⟩ [] (by decide) (by decide)⟩

/-- C7: within one makePath tick a loaded Sprite draws before it steps —
the geometry drawn is the sheet region of the currently indexed
(pre-advance) frame — then advances the frame by the speed option exactly
when not paused and (loop is set or the last frame is not reached), and a
sprite-frame event fires exactly when the integer frame number changed. -/
theorem claim7_sprite_paints_before_stepping (s : SpriteS)
    (hload : s.isLoaded = true) :
    (spriteMakePath s).2.1
      = [PathCmd.drawImage (frameAt s).frame.x (frameAt s).frame.y
          (frameAt s).frame.w (frameAt s).frame.h
          (frameAt s).spriteSourceSize.x (frameAt s).spriteSourceSize.y
          (frameAt s).spriteSourceSize.w (frameAt s).spriteSourceSize.h] ∧
    (spriteMakePath s).1.frame
      = (if s.isPaused = false
            ∧ (s.loop = true ∨ s.frame < (s.frames.length : ℚ) - 1)
         then modulo (s.frame + s.speed) (s.frames.length : ℚ)
         else s.frame) ∧
    ("sprite-frame" ∈ (spriteMakePath s).2.2
      ↔ ⌊(spriteMakePath s).1.frame⌋ ≠ ⌊s.frame⌋) := by
  obtain ⟨url, frames, frame, isPaused, isLoaded, width, height, speed, loop⟩ := s
  simp only at hload
  subst hload
  refine ⟨?_, ?_, ?_⟩
  · simp [spriteMakePath, imageMakePath, spriteDraw, frameAt]
  · cases isPaused <;> cases loop <;>
      by_cases hf : frame < (frames.length : ℚ) - 1 <;>
      simp [spriteMakePath, setFrame, hf, imageMakePath]
  · cases isPaused <;> cases loop <;>
      by_cases hf : frame < (frames.length : ℚ) - 1 <;>
      · simp only [spriteMakePath, setFrame, hf, imageMakePath]
        by_cases hp :
            ⌊modulo (frame + speed) ((frames.length : ℚ))⌋ = ⌊frame⌋ <;>
          simp [hp]

/-- C7 witness: a loaded two-frame looping sprite at frame 0 with speed 1. -/
theorem claim7_witness :
    (SpriteS.mk "u" [⟨⟨0, 0, 4, 4⟩, ⟨0, 0, 10, 10⟩⟩,
        ⟨⟨4, 0, 4, 4⟩, ⟨0, 0, 20, 20⟩⟩] 0 false true 10 10 1 true).isLoaded
      = true ∧
    (spriteMakePath (SpriteS.mk "u" [⟨⟨0, 0, 4, 4⟩, ⟨0, 0, 10, 10⟩⟩,
        ⟨⟨4, 0, 4, 4⟩, ⟨0, 0, 20, 20⟩⟩] 0 false true 10 10 1 true)).2.1
      = [PathCmd.drawImage
          (frameAt (SpriteS.mk "u" [⟨⟨0, 0, 4, 4⟩, ⟨0, 0, 10, 10⟩⟩,
            ⟨⟨4, 0, 4, 4⟩, ⟨0, 0, 20, 20⟩⟩] 0 false true 10 10 1 true)).frame.x
          (frameAt (SpriteS.mk "u" [⟨⟨0, 0, 4, 4⟩, ⟨0, 0, 10, 10⟩⟩,
            ⟨⟨4, 0, 4, 4⟩, ⟨0, 0, 20, 20⟩⟩] 0 false true 10 10 1 true)).frame.y
          (frameAt (SpriteS.mk "u" [⟨⟨0, 0, 4, 4⟩, ⟨0, 0, 10, 10⟩⟩,
            ⟨⟨4, 0, 4, 4⟩, ⟨0, 0, 20, 20⟩⟩] 0 false true 10 10 1 true)).frame.w
          (frameAt (SpriteS.mk "u" [⟨⟨0, 0, 4, 4⟩, ⟨0, 0, 10, 10⟩⟩,
            ⟨⟨4, 0, 4, 4⟩, ⟨0, 0, 20, 20⟩⟩] 0 false true 10 10 1 true)).frame.h
          (frameAt (SpriteS.mk "u" [⟨⟨0, 0, 4, 4⟩, ⟨0, 0, 10, 10⟩⟩,
            ⟨⟨4, 0, 4, 4⟩, ⟨0, 0, 20, 20⟩⟩] 0 false true 10 10 1
            true)).spriteSourceSize.x
          (frameAt (SpriteS.mk "u" [⟨⟨0, 0, 4, 4⟩, ⟨0, 0, 10, 10⟩⟩,
            ⟨⟨4, 0, 4, 4⟩, ⟨0, 0, 20, 20⟩⟩] 0 false true 10 10 1
            true)).spriteSourceSize.y
          (frameAt (SpriteS.mk "u" [⟨⟨0, 0, 4, 4⟩, ⟨0, 0, 10, 10⟩⟩,
            ⟨⟨4, 0, 4, 4⟩, ⟨0, 0, 20, 20⟩⟩] 0 false true 10 10 1
            true)).spriteSourceSize.w
          (frameAt (SpriteS.mk "u" [⟨⟨0, 0, 4, 4⟩, ⟨0, 0, 10, 10⟩⟩,
            ⟨⟨4, 0, 4, 4⟩, ⟨0, 0, 20, 20⟩⟩] 0 false true 10 10 1
            true)).spriteSourceSize.h] :=
  have h := claim7_sprite_paints_before_stepping
    (SpriteS.mk "u" [⟨⟨0, 0, 4, 4⟩, ⟨0, 0, 10, 10⟩⟩,
      ⟨⟨4, 0, 4, 4⟩, ⟨0, 0, 20, 20⟩⟩] 0 false true 10 10 1 true) (by decide)
  ⟨by decide, h.1⟩

theorem spriteMakePath_preserves (s : SpriteS) :
    (spriteMakePath s).1.frames = s.frames ∧
    (spriteMakePath s).1.isLoaded = s.isLoaded := by
  obtain ⟨url, frames, frame, isPaused, isLoaded, width, height, speed, loop⟩ := s
  cases isLoaded <;> cases isPaused <;> cases loop <;>
    by_cases hf : frame < (frames.length : ℚ) - 1 <;>
    simp [spriteMakePath, setFrame, imageMakePath, hf]

theorem spriteMakePath_frame_loop (s : SpriteS) (h : s.isLoaded = true)
    (hp : s.isPaused = false) (hl : s.loop = true) :
    (spriteMakePath s).1.frame
      = modulo (s.frame + s.speed) (s.frames.length : ℚ) := by
  obtain ⟨url, frames, frame, isPaused, isLoaded, width, height, speed, loop⟩ := s
  simp only at h hp hl
  subst h
  subst hp
  subst hl
  simp [spriteMakePath, setFrame, imageMakePath]

theorem spriteMakePath_geometry (s : SpriteS) (h : s.isLoaded = true) :
    (spriteMakePath s).2.1
      = [PathCmd.drawImage (frameAt s).frame.x (frameAt s).frame.y
          (frameAt s).frame.w (frameAt s).frame.h
          (frameAt s).spriteSourceSize.x (frameAt s).spriteSourceSize.y
          (frameAt s).spriteSourceSize.w (frameAt s).spriteSourceSize.h] := by
  obtain ⟨url, frames, frame, isPaused, isLoaded, width, height, speed, loop⟩ := s
  simp only at h
  subst h
  simp [spriteMakePath, imageMakePath, spriteDraw, frameAt]

/-- C2 counterexample: a loaded, unpaused, looping two-frame sprite whose
two frames have different source sizes.  Its makePath is the computePath of
the Sprite shape, yet calling it twice without any attribute mutation
changes the sprite's state (the frame advances) and produces different
geometry on the second call. -/
theorem claim2_counterexample_sprite_makePath_not_idempotent :
    (spriteMakePath ((spriteMakePath (SpriteS.mk "u"
        [⟨⟨0, 0, 4, 4⟩, ⟨0, 0, 10, 10⟩⟩, ⟨⟨4, 0, 4, 4⟩, ⟨0, 0, 20, 20⟩⟩]
        0 false true 10 10 1 true)).1)).2.1
      ≠ (spriteMakePath (SpriteS.mk "u"
        [⟨⟨0, 0, 4, 4⟩, ⟨0, 0, 10, 10⟩⟩, ⟨⟨4, 0, 4, 4⟩, ⟨0, 0, 20, 20⟩⟩]
        0 false true 10 10 1 true)).2.1 ∧
    (spriteMakePath (SpriteS.mk "u"
        [⟨⟨0, 0, 4, 4⟩, ⟨0, 0, 10, 10⟩⟩, ⟨⟨4, 0, 4, 4⟩, ⟨0, 0, 20, 20⟩⟩]
        0 false true 10 10 1 true)).1
      ≠ SpriteS.mk "u"
        [⟨⟨0, 0, 4, 4⟩, ⟨0, 0, 10, 10⟩⟩, ⟨⟨4, 0, 4, 4⟩, ⟨0, 0, 20, 20⟩⟩]
        0 false true 10 10 1 true := by
  have hmod : modulo ((0 : ℚ) + 1) 2 = 1 := by
    rw [show ((0 : ℚ) + 1) = 1 by norm_num]
    exact modulo_eq_self 1 2 (by norm_num) (by norm_num)
  have hfa0 : frameAt (SpriteS.mk "u"
      [⟨⟨0, 0, 4, 4⟩, ⟨0, 0, 10, 10⟩⟩, ⟨⟨4, 0, 4, 4⟩, ⟨0, 0, 20, 20⟩⟩]
      0 false true 10 10 1 true)
      = ⟨⟨0, 0, 4, 4⟩, ⟨0, 0, 10, 10⟩⟩ := by
    simp [frameAt, List.getD]
  have hframe1 : (spriteMakePath (SpriteS.mk "u"
      [⟨⟨0, 0, 4, 4⟩, ⟨0, 0, 10, 10⟩⟩, ⟨⟨4, 0, 4, 4⟩, ⟨0, 0, 20, 20⟩⟩]
      0 false true 10 10 1 true)).1.frame = 1 := by
    rw [spriteMakePath_frame_loop _ rfl rfl rfl]
    simpa using hmod
  have hpres := spriteMakePath_preserves (SpriteS.mk "u"
      [⟨⟨0, 0, 4, 4⟩, ⟨0, 0, 10, 10⟩⟩, ⟨⟨4, 0, 4, 4⟩, ⟨0, 0, 20, 20⟩⟩]
      0 false true 10 10 1 true)
  have hfa1 : frameAt ((spriteMakePath (SpriteS.mk "u"
      [⟨⟨0, 0, 4, 4⟩, ⟨0, 0, 10, 10⟩⟩, ⟨⟨4, 0, 4, 4⟩, ⟨0, 0, 20, 20⟩⟩]
      0 false true 10 10 1 true)).1)
      = ⟨⟨4, 0, 4, 4⟩, ⟨0, 0, 20, 20⟩⟩ := by
    rw [frameAt, hpres.1, hframe1]
    simp [List.getD]
  have hg1 : (spriteMakePath (SpriteS.mk "u"
      [⟨⟨0, 0, 4, 4⟩, ⟨0, 0, 10, 10⟩⟩, ⟨⟨4, 0, 4, 4⟩, ⟨0, 0, 20, 20⟩⟩]
      0 false true 10 10 1 true)).2.1
      = [PathCmd.drawImage 0 0 4 4 0 0 10 10] := by
    rw [spriteMakePath_geometry _ rfl, hfa0]
  have hg2 : (spriteMakePath ((spriteMakePath (SpriteS.mk "u"
      [⟨⟨0, 0, 4, 4⟩, ⟨0, 0, 10, 10⟩⟩, ⟨⟨4, 0, 4, 4⟩, ⟨0, 0, 20, 20⟩⟩]
      0 false true 10 10 1 true)).1)).2.1
      = [PathCmd.drawImage 4 0 4 4 0 0 20 20] := by
    rw [spriteMakePath_geometry _ (by rw [hpres.2]), hfa1]
  constructor
  · rw [hg1, hg2]
    intro h
    have := List.head_eq_of_cons_eq h
    simp [PathCmd.drawImage.injEq] at this
  · intro h
    have := congrArg SpriteS.frame h
    rw [hframe1] at this
    simp only at this
    exact absurd this (by norm_num)

theorem computePathWith_idem {α G : Type} (tr : α → G) (c : PathNode α G) :
    computePathWith tr (computePathWith tr c) = computePathWith tr c ∧
    (computePathWith tr c).isPathDirty = false := by
  by_cases hcond : (c.isPathDirty || c.path.isNone) = true
  · constructor <;> simp [computePathWith, hcond]
  · have h1 : c.isPathDirty = false := by
      simp only [Bool.or_eq_true, not_or] at hcond
      simpa using hcond.1
    constructor
    · simp only [computePathWith]
      rw [if_neg hcond, if_neg hcond]
    · simp only [computePathWith]
      rw [if_neg hcond]
      exact h1

/-- C2 amended: computePath is idempotent for every shape whose geometry is
a pure function of its attributes — Rectangle, Line, Arc and Text: the
dirty-flag wrapper recomputes at most once, leaves the flag cleared, and a
second call without attribute mutation is a no-op returning the same state
and cached geometry — and Sprite.makePath is idempotent while the sprite is
paused; but an unpaused loaded Sprite advances its frame inside makePath,
so for Sprite idempotence only holds when paused (see the counterexample). -/
theorem claim2_computePath_idempotent_amended
    (cr : PathNode RectangleS (List PathCmd))
    (cl : PathNode LineS (List PathCmd))
    (ca : PathNode ArcS (Except String (List PathCmd)))
    (ct : PathNode (ℚ × ℚ) (List PathCmd))
    (s : SpriteS) (hp : s.isPaused = true) :
    (computePathWith rectanglePathOf (computePathWith rectanglePathOf cr)
        = computePathWith rectanglePathOf cr
      ∧ (computePathWith rectanglePathOf cr).isPathDirty = false) ∧
    (computePathWith linePathOf (computePathWith linePathOf cl)
        = computePathWith linePathOf cl
      ∧ (computePathWith linePathOf cl).isPathDirty = false) ∧
    (computePathWith arcPathOf (computePathWith arcPathOf ca)
        = computePathWith arcPathOf ca
      ∧ (computePathWith arcPathOf ca).isPathDirty = false) ∧
    (computePathWith textPathOf (computePathWith textPathOf ct)
        = computePathWith textPathOf ct
      ∧ (computePathWith textPathOf ct).isPathDirty = false) ∧
    spriteMakePath ((spriteMakePath s).1) = spriteMakePath s := by
  refine ⟨computePathWith_idem rectanglePathOf cr,
    computePathWith_idem linePathOf cl,
    computePathWith_idem arcPathOf ca,
    computePathWith_idem textPathOf ct, ?_⟩
  obtain ⟨url, frames, frame, isPaused, isLoaded, width, height, speed, loop⟩ := s
  simp only at hp
  subst hp
  cases isLoaded <;>
    simp [spriteMakePath, imageMakePath, spriteDraw, frameAt]

/-- C2 witness: dirty rectangle, line, arc and text nodes and a paused
sprite. -/
theorem claim2_witness :
    (SpriteS.mk "u" [⟨⟨0, 0, 4, 4⟩, ⟨0, 0, 10, 10⟩⟩] 0 true true 10 10 1
      true).isPaused = true ∧
    (computePathWith rectanglePathOf
        (computePathWith rectanglePathOf ⟨⟨5, 3⟩, none, true⟩)
      = computePathWith rectanglePathOf ⟨⟨5, 3⟩, none, true⟩
      ∧ (computePathWith rectanglePathOf
          (⟨⟨5, 3⟩, none, true⟩ : PathNode RectangleS (List PathCmd))).isPathDirty
        = false) ∧
    (computePathWith linePathOf
        (computePathWith linePathOf ⟨⟨[(3, 4)]⟩, none, true⟩)
      = computePathWith linePathOf ⟨⟨[(3, 4)]⟩, none, true⟩
      ∧ (computePathWith linePathOf
          (⟨⟨[(3, 4)]⟩, none, true⟩ : PathNode LineS (List PathCmd))).isPathDirty
        = false) ∧
    (computePathWith arcPathOf
        (computePathWith arcPathOf ⟨⟨1, 2, 0, 0⟩, none, true⟩)
      = computePathWith arcPathOf ⟨⟨1, 2, 0, 0⟩, none, true⟩
      ∧ (computePathWith arcPathOf
          (⟨⟨1, 2, 0, 0⟩, none, true⟩
            : PathNode ArcS (Except String (List PathCmd)))).isPathDirty
        = false) ∧
    (computePathWith textPathOf
        (computePathWith textPathOf ⟨(5, 7), none, true⟩)
      = computePathWith textPathOf ⟨(5, 7), none, true⟩
      ∧ (computePathWith textPathOf
          (⟨(5, 7), none, true⟩ : PathNode (ℚ × ℚ) (List PathCmd))).isPathDirty
        = false) ∧
    spriteMakePath ((spriteMakePath (SpriteS.mk "u"
        [⟨⟨0, 0, 4, 4⟩, ⟨0, 0, 10, 10⟩⟩] 0 true true 10 10 1 true)).1)
      = spriteMakePath (SpriteS.mk "u"
        [⟨⟨0, 0, 4, 4⟩, ⟨0, 0, 10, 10⟩⟩] 0 true true 10 10 1 true) :=
  ⟨by decide,
    claim2_computePath_idempotent_amended ⟨⟨5, 3⟩, none, true⟩
      ⟨⟨[(3, 4)]⟩, none, true⟩ ⟨⟨1, 2, 0, 0⟩, none, true⟩ ⟨(5, 7), none, true⟩
      (SpriteS.mk "u" [⟨⟨0, 0, 4, 4⟩, ⟨0, 0, 10, 10⟩⟩] 0 true true 10 10 1
        true)
      (by decide)⟩

mutual

theorem treeRoundTripAux : ∀ t : PTree, treeWF t = true →
    treeFromJSON (treeToJSON t) = .ok (resetSelects t)
  | .rect p o w h cs, hwf => by
    have hcs : treeWFList cs = true := by simpa [treeWF] using hwf
    simp only [treeToJSON, treeFromJSON, resetSelects,
      treeListRoundTripAux cs hcs]
  | .line p o pts cs, hwf => by
    have hcs : treeWFList cs = true := by simpa [treeWF] using hwf
    simp only [treeToJSON, treeFromJSON, resetSelects,
      treeListRoundTripAux cs hcs]
  | .arc p o a cs, hwf => by
    have hcs : treeWFList cs = true := by simpa [treeWF] using hwf
    simp only [treeToJSON, treeFromJSON, resetSelects,
      treeListRoundTripAux cs hcs]
  | .text p o lines cs, hwf => by
    simp only [treeWF, Bool.and_eq_true, Bool.not_eq_true',
      List.isEmpty_eq_false] at hwf
    obtain ⟨⟨hne, hall⟩, hcs⟩ := hwf
    simp only [List.all_eq_true, decide_eq_true_eq] at hall
    simp only [treeToJSON, treeFromJSON, resetSelects,
      treeListRoundTripAux cs hcs,
      splitSep_joinSep lines hne hall]
  | .sprite p o url frames frame isPaused cs, hwf => by
    simp only [treeWF, Bool.and_eq_true, decide_eq_true_eq] at hwf
    obtain ⟨⟨⟨hpos, h0⟩, hlt⟩, hcs⟩ := hwf
    simp only [treeToJSON, treeFromJSON, resetSelects,
      treeListRoundTripAux cs hcs,
      modulo_eq_self frame (frames.length : ℚ) h0 hlt]
  | .select p o values sel cs, hwf => by
    simp only [treeWF, Bool.and_eq_true, Bool.not_eq_true',
      List.isEmpty_eq_false] at hwf
    obtain ⟨hne, hcs⟩ := hwf
    have hlen : ¬values.length = 0 := by
      simpa [List.length_eq_zero] using hne
    simp only [treeToJSON, treeFromJSON, resetSelects,
      treeListRoundTripAux cs hcs, if_neg hlen]

theorem treeListRoundTripAux : ∀ ts : List PTree, treeWFList ts = true →
    treeFromJSONList (treeToJSONList ts) = .ok (resetSelectsList ts)
  | [], _ => rfl
  | t :: ts, hwf => by
    have hw : treeWF t = true ∧ treeWFList ts = true := by
      simpa [treeWFList, Bool.and_eq_true] using hwf
    simp only [treeToJSONList, treeFromJSONList, resetSelectsList,
      treeRoundTripAux t hw.1, treeListRoundTripAux ts hw.2]

end

/-- C1 counterexample: a Select over two options with selected index 1.
Select.toJSON serializes only the option texts (as `values`), not the
selected index, and Select.from re-runs the constructor, which resets the
selected index to 0 — so the round trip does not reproduce the tree. -/
theorem claim1_counterexample_select_selected_lost :
    treeFromJSON (treeToJSON (PTree.select (0, 0) []
        [[Char.ofNat 97], [Char.ofNat 98]] 1 []))
      ≠ .ok (PTree.select (0, 0) [] [[Char.ofNat 97], [Char.ofNat 98]] 1 []) := by
  intro h
  rw [show treeFromJSON (treeToJSON (PTree.select (0, 0) []
        [[Char.ofNat 97], [Char.ofNat 98]] 1 []))
      = .ok (PTree.select (0, 0) [] [[Char.ofNat 97], [Char.ofNat 98]] 0 [])
      from rfl] at h
  simp only [Except.ok.injEq, PTree.select.injEq] at h
  obtain ⟨-, -, -, hsel, -⟩ := h
  norm_num at hsel

/-- C1 amended: for every well-formed tree built from the registered shape
types, `from(toJSON(T))` reconstructs the tree with identical type tags,
positions, options, child ordering and shape-specific fields at every
level, with one exception forced by the sources: every Select node's
selected value is reset to 0, because Select.toJSON omits it and
Select.from re-runs the constructor. -/
theorem claim1_roundtrip_structural_equality (t : PTree)
    (hwf : treeWF t = true) :
    treeFromJSON (treeToJSON t) = .ok (resetSelects t) :=
  treeRoundTripAux t hwf

/-- C1 witness: a two-level tree with one node of every shape kind. -/
theorem claim1_witness :
    treeWF (PTree.rect (1, 2) [("fill", OptVal.str "red")] 50 30
      [PTree.text (0, 0) [] [[Char.ofNat 97], []] [],
       PTree.sprite (0, 0) [] "u" [⟨⟨0, 0, 1, 1⟩, ⟨0, 0, 2, 2⟩⟩] 0 false [],
       PTree.select (0, 0) [] [[Char.ofNat 97]] 0 [],
       PTree.arc (0, 0) [] ⟨1, 2, 0, 0⟩ [],
       PTree.line (0, 0) [] [(3, 4)] []]) = true ∧
    treeFromJSON (treeToJSON (PTree.rect (1, 2) [("fill", OptVal.str "red")]
      50 30
      [PTree.text (0, 0) [] [[Char.ofNat 97], []] [],
       PTree.sprite (0, 0) [] "u" [⟨⟨0, 0, 1, 1⟩, ⟨0, 0, 2, 2⟩⟩] 0 false [],
       PTree.select (0, 0) [] [[Char.ofNat 97]] 0 [],
       PTree.arc (0, 0) [] ⟨1, 2, 0, 0⟩ [],
       PTree.line (0, 0) [] [(3, 4)] []]))
      = .ok (resetSelects (PTree.rect (1, 2) [("fill", OptVal.str "red")]
        50 30
        [PTree.text (0, 0) [] [[Char.ofNat 97], []] [],
         PTree.sprite (0, 0) [] "u" [⟨⟨0, 0, 1, 1⟩, ⟨0, 0, 2, 2⟩⟩] 0 false [],
         PTree.select (0, 0) [] [[Char.ofNat 97]] 0 [],
         PTree.arc (0, 0) [] ⟨1, 2, 0, 0⟩ [],
         PTree.line (0, 0) [] [(3, 4)] []])) :=
  ⟨by decide,
    claim1_roundtrip_structural_equality
      (PTree.rect (1, 2) [("fill", OptVal.str "red")] 50 30
        [PTree.text (0, 0) [] [[Char.ofNat 97], []] [],
         PTree.sprite (0, 0) [] "u" [⟨⟨0, 0, 1, 1⟩, ⟨0, 0, 2, 2⟩⟩] 0 false [],
         PTree.select (0, 0) [] [[Char.ofNat 97]] 0 [],
         PTree.arc (0, 0) [] ⟨1, 2, 0, 0⟩ [],
         PTree.line (0, 0) [] [(3, 4)] []]) (by decide)⟩
